import Mathlib

/-!
Verification of the RAG assignment notebook (`02_Embeddings_and_RAG/assignment.ipynb`).

The notebook defines `RAG_SYSTEM_TEMPLATE`, `RAG_USER_TEMPLATE`, the prompt
objects `rag_system_prompt` / `rag_user_prompt`, and the class
`RetrievalAugmentedQAPipeline` with its `run_pipeline` method.  Those are
embedded directly below.  The `aimakerspace` collaborators that the notebook
imports (`VectorDatabase`, `CharacterTextSplitter`, the `PromptTemplate`
rendering inside `SystemRolePrompt` / `UserRolePrompt`) are not part of the
repository snapshot, so they are modelled from the specification where a claim
needs them; each such definition is marked `Modelled from the spec:`.

Floating-point scores are embedded as exact rationals (every IEEE double is a
rational); cosine similarity, whose definition requires square roots, lives in
`ℝ`.
-/

namespace RAG

/-- The error kinds of the design (spec section 7). -/
inductive RAGError where
  | invalidConfig : RAGError
  | embeddingError : RAGError
  | emptyStoreError : RAGError
  | degenerateVectorError : RAGError
  | missingPlaceholderError (name : String) : RAGError
  | generationError : RAGError
deriving DecidableEq, Repr

/-! ### Python `.3f` float formatting, on rationals -/

/-- Round to the nearest integer, ties to even (the rounding used by Python
`format(x, ".3f")` on the exact value of the float). -/
def roundHalfEven (q : ℚ) : ℤ :=
  let f : ℤ := ⌊q⌋
  let r : ℚ := q - (f : ℚ)
  if r < 1/2 then f
  else if 1/2 < r then f + 1
  else if f % 2 = 0 then f else f + 1

/-- Left-pad the fractional part to three digits. -/
def pad3 (n : ℕ) : String :=
  if n < 10 then "00" ++ toString n
  else if n < 100 then "0" ++ toString n
  else toString n

/-- Embedding of the Python f-string conversion `f"\x7bscore:.3f\x7d"`:
the value rounded to three decimal places, ties to even, with a leading
minus sign exactly when the value is negative. -/
def formatScore3 (q : ℚ) : String :=
  let n : ℤ := roundHalfEven (q * 1000)
  let sign : String := if q < 0 then "-" else ""
  sign ++ toString (n.natAbs / 1000) ++ "." ++ pad3 (n.natAbs % 1000)

/-! ### Python `str.strip()` -/

/-- The ASCII whitespace characters stripped by Python `str.strip()`. -/
def isPyWhitespace (c : Char) : Bool :=
  c = ' ' ∨ c = '\t' ∨ c = '\n' ∨ c = '\r' ∨ c = '\x0b' ∨ c = '\x0c'

/-- Embedding of Python `str.strip()`: remove leading and trailing
whitespace. -/
def pyStrip (s : String) : String :=
  String.mk (((s.data.dropWhile isPyWhitespace).reverse.dropWhile
    isPyWhitespace).reverse)

/-! ### Prompt templates

A template is a list of literal pieces and placeholders; the two concrete
templates below spell out `RAG_SYSTEM_TEMPLATE` and `RAG_USER_TEMPLATE`
from the notebook piece by piece. -/

/-- One piece of a template: a literal run of text or a named placeholder. -/
inductive TPart where
  | lit (s : String) : TPart
  | ph (name : String) : TPart
deriving DecidableEq, Repr

/-- Python dict lookup on an association list (later duplicates never arise
in the pipeline's parameter dictionaries). -/
def lookupParam (params : List (String × String)) (n : String) : Option String :=
  (params.find? (fun p => p.1 == n)).map Prod.snd

/-- Modelled from the spec: `PromptTemplate.create_message` (aimakerspace
`SystemRolePrompt`/`UserRolePrompt`, not in the repository snapshot).
Substitutes every placeholder with the supplied value, falling back to the
configured default; in strict mode an unresolved placeholder fails with
`MissingPlaceholderError`, in non-strict mode it renders as the empty
string. -/
def renderParts (strict : Bool) (defaults params : List (String × String)) :
    List TPart → Except RAGError String
  | [] => Except.ok ""
  | TPart.lit s :: rest =>
      (renderParts strict defaults params rest).map (fun t => s ++ t)
  | TPart.ph n :: rest =>
      match lookupParam params n with
      | some v => (renderParts strict defaults params rest).map (fun t => v ++ t)
      | none =>
        match lookupParam defaults n with
        | some v => (renderParts strict defaults params rest).map (fun t => v ++ t)
        | none =>
          if strict then Except.error (RAGError.missingPlaceholderError n)
          else (renderParts strict defaults params rest).map (fun t => t)

/-- `RAG_SYSTEM_TEMPLATE`, the text before the `response_style` placeholder. -/
def sysPre : String :=
  "You are a knowledgeable assistant that answers questions based strictly on provided context.\n\nInstructions:\n- Only answer questions using information from the provided context\n- If the context doesn\x27t contain relevant information, respond with \"I don\x27t know\"\n- Be accurate and cite specific parts of the context when possible\n- Keep responses "

/-- `RAG_SYSTEM_TEMPLATE`, the text after the `response_length` placeholder. -/
def sysPost : String :=
  "\n- Only use the provided context. Do not use external knowledge.\n- Only provide answers when you are confident the context supports your response."

/-- The pieces of `RAG_SYSTEM_TEMPLATE` (notebook cell defining the RAG
prompts). -/
def ragSystemParts : List TPart :=
  [TPart.lit sysPre, TPart.ph "response_style", TPart.lit " and ",
   TPart.ph "response_length", TPart.lit sysPost]

/-- The pieces of `RAG_USER_TEMPLATE`. -/
def ragUserParts : List TPart :=
  [TPart.lit "Context Information:\n", TPart.ph "context",
   TPart.lit "\n\nNumber of relevant sources found: ", TPart.ph "context_count",
   TPart.lit "\n", TPart.ph "similarity_scores",
   TPart.lit "\n\nQuestion: ", TPart.ph "user_query",
   TPart.lit "\n\nPlease provide your answer based solely on the context above."]

/-- Defaults of `rag_system_prompt` (notebook: strict, defaults
`response_style = "simple"`, `response_length = "short"`). -/
def ragSystemDefaults : List (String × String) :=
  [("response_style", "simple"), ("response_length", "short")]

/-- Defaults of `rag_user_prompt` (notebook: strict, defaults
`context_count = ""`, `similarity_scores = ""`). -/
def ragUserDefaults : List (String × String) :=
  [("context_count", ""), ("similarity_scores", "")]

/-! ### The pipeline (`RetrievalAugmentedQAPipeline.run_pipeline`) -/

/-- The dictionary returned by `run_pipeline`. -/
structure PipelineResult where
  response : String
  context : List (String × ℚ)
  context_count : ℕ
  similarity_scores : Option (List String)
  prompts_system : String
  prompts_user : String
deriving DecidableEq, Repr

/-- Embedding of `RetrievalAugmentedQAPipeline.run_pipeline` from the
notebook.  The constructor-injected collaborators become parameters:
`llm` is `self.llm.run`, `retriever` is
`self.vector_db_retriever.search_by_text`, `response_style` and
`include_scores` are the pipeline configuration; `system_kwargs` is the
keyword-argument dictionary.  Python exceptions raised by a collaborator
become `Except.error`, which the `do` binds propagate unmodified, exactly
as the method body (which installs no handler) does. -/
def run_pipeline (llm : List String → Except RAGError String)
    (retriever : String → ℕ → Except RAGError (List (String × ℚ)))
    (response_style : String) (include_scores : Bool)
    (user_query : String) (k : ℕ)
    (system_kwargs : List (String × String)) :
    Except RAGError PipelineResult := do
  let context_list ← retriever user_query k
  let numbered := context_list.enumFrom 1
  let context_prompt := String.join (numbered.map
    (fun p => "[Source " ++ toString p.1 ++ "]: " ++ p.2.1 ++ "\n\n"))
  let similarity_scores := numbered.map
    (fun p => "Source " ++ toString p.1 ++ ": " ++ formatScore3 p.2.2)
  let response_length := (lookupParam system_kwargs "response_length").getD "detailed"
  let formatted_system_prompt ← renderParts true ragSystemDefaults
    [("response_style", response_style), ("response_length", response_length)]
    ragSystemParts
  let scores_line := if include_scores then
      "Relevance scores: " ++ String.intercalate ", " similarity_scores
    else ""
  let formatted_user_prompt ← renderParts true ragUserDefaults
    [("user_query", user_query), ("context", pyStrip context_prompt),
     ("context_count", toString context_list.length),
     ("similarity_scores", scores_line)]
    ragUserParts
  let resp ← llm [formatted_system_prompt, formatted_user_prompt]
  Except.ok
    { response := resp
      context := context_list
      context_count := context_list.length
      similarity_scores := if include_scores then some similarity_scores else none
      prompts_system := formatted_system_prompt
      prompts_user := formatted_user_prompt }

/-! ### Deterministic collaborator stubs, for concrete evaluations -/

/-- A deterministic LLM stub: always answers `"ans"`. -/
def llmConst : List String → Except RAGError String :=
  fun _ => Except.ok "ans"

/-- An LLM stub that always fails with a generation error. -/
def llmFail : List String → Except RAGError String :=
  fun _ => Except.error RAGError.generationError

/-- A deterministic retriever stub: one chunk `"c"` with score `1/2`. -/
def retrConst : String → ℕ → Except RAGError (List (String × ℚ)) :=
  fun _ _ => Except.ok [("c", 1/2)]

/-- A retriever stub returning no chunks. -/
def retrEmpty : String → ℕ → Except RAGError (List (String × ℚ)) :=
  fun _ _ => Except.ok []

/-- A retriever stub that always fails with an embedding error. -/
def retrFail : String → ℕ → Except RAGError (List (String × ℚ)) :=
  fun _ _ => Except.error RAGError.embeddingError

/-! ### The rendered messages, written out -/

/-- `RAG_SYSTEM_TEMPLATE` rendered with a response style and length. -/
def sysMsg (style len : String) : String :=
  sysPre ++ style ++ " and " ++ len ++ sysPost

/-- `RAG_USER_TEMPLATE` rendered with a query, context block, count and
scores line. -/
def userMsg (q ctx cnt scores : String) : String :=
  "Context Information:\n" ++ ctx ++ "\n\nNumber of relevant sources found: " ++
    cnt ++ "\n" ++ scores ++ "\n\nQuestion: " ++ q ++
    "\n\nPlease provide your answer based solely on the context above."

/-- The similarity strings built by the `run_pipeline` loop: one
`"Source i: <score>"` entry per retrieved chunk, numbered from 1 in
retrieval order. -/
def scoreStrings (ctx : List (String × ℚ)) : List String :=
  (ctx.enumFrom 1).map
    (fun p => "Source " ++ toString p.1 ++ ": " ++ formatScore3 p.2.2)

/-- The context block built by the `run_pipeline` loop, before the final
`strip()`: one `"[Source i]: <chunk>"` entry per retrieved chunk. -/
def contextBlockRaw (ctx : List (String × ℚ)) : String :=
  String.join ((ctx.enumFrom 1).map
    (fun p => "[Source " ++ toString p.1 ++ "]: " ++ p.2.1 ++ "\n\n"))

/-- The similarity-scores line of the user message: empty when scores are
excluded. -/
def scoresLine (include_scores : Bool) (ctx : List (String × ℚ)) : String :=
  if include_scores then
    "Relevance scores: " ++ String.intercalate ", " (scoreStrings ctx)
  else ""

/-- The system message `run_pipeline` renders: the configured style, and
the `response_length` keyword override, defaulting to `"detailed"`. -/
def pipelineSystemMessage (style : String)
    (kw : List (String × String)) : String :=
  sysMsg style ((lookupParam kw "response_length").getD "detailed")

/-- The user message `run_pipeline` renders. -/
def pipelineUserMessage (include_scores : Bool) (q : String)
    (ctx : List (String × ℚ)) : String :=
  userMsg q (pyStrip (contextBlockRaw ctx)) (toString ctx.length)
    (scoresLine include_scores ctx)

/-! ### The vector store (`aimakerspace.vectordatabase.VectorDatabase`)

Modelled from the spec: the `VectorDatabase` module is imported by the
notebook but is not part of the repository snapshot.  Spec section 4.2:
`search` computes cosine similarity between the query vector and every
stored vector, sorts by similarity descending with a stable sort (ties keep
insertion order), returns the top `k` (all entries when fewer than `k`),
and fails with `EmptyStoreError` on an empty store. -/

/-- An entry of the in-memory vector store: a chunk and its embedding,
in insertion order. -/
structure IndexEntry where
  chunk : String
  vector : List ℝ

/-- Dot product of two embedding vectors. -/
noncomputable def dotList (a b : List ℝ) : ℝ :=
  (List.zipWith (fun x y => x * y) a b).sum

/-- Modelled from the spec: cosine similarity
`dot(a,b) / (norm(a) * norm(b))` with the Euclidean norm. -/
noncomputable def cosine_similarity (a b : List ℝ) : ℝ :=
  dotList a b / (Real.sqrt (dotList a a) * Real.sqrt (dotList b b))

/-- The descending comparison on scored chunks used by `search`: `a`
precedes `b` when `a`'s similarity is at least `b`'s. -/
noncomputable def simLE (a b : String × ℝ) : Bool :=
  decide (b.2 ≤ a.2)

/-- Modelled from the spec: `VectorDatabase.search`.  Scores every stored
entry by cosine similarity with the query, sorts the scored pairs by score
descending (stable merge sort, so equal scores keep insertion order) and
takes the first `k`; an empty store fails with `EmptyStoreError`. -/
noncomputable def search (db : List IndexEntry) (query_vector : List ℝ)
    (k : ℕ) : Except RAGError (List (String × ℝ)) :=
  if db.isEmpty then Except.error RAGError.emptyStoreError
  else Except.ok
    (((db.map (fun e => (e.chunk, cosine_similarity query_vector e.vector))).mergeSort
      simLE).take k)

/-! ### The chunker (`aimakerspace.text_utils.CharacterTextSplitter`)

Modelled from the spec: the splitter module is imported by the notebook but
is not part of the repository snapshot.  Spec section 4.1: consecutive
windows of `chunk_size` characters advancing by `chunk_size - overlap`
characters; the final window may be shorter and is still emitted if
non-empty; invalid parameters fail with `InvalidConfig`. -/

/-- Modelled from the spec: the window loop of the chunker.  Emits the
window starting at the head of `text` and recurses on the text with `step`
characters dropped, until the remaining text is empty.  The fuel argument
only bounds the recursion; `text.length` is enough fuel whenever
`step ≥ 1`. -/
def splitGo (chunkSize step : ℕ) : ℕ → List Char → List (List Char)
  | 0, _ => []
  | _ + 1, [] => []
  | fuel + 1, c :: rest =>
      List.take chunkSize (c :: rest) ::
        splitGo chunkSize step fuel (List.drop step (c :: rest))

/-- Modelled from the spec: `TextChunker.split` on a single document.
Fails with `InvalidConfig` if `chunk_size ≤ 0` or `overlap ≥ chunk_size`;
otherwise emits the consecutive windows. -/
def split_text (chunk_size overlap : ℕ) (text : List Char) :
    Except RAGError (List (List Char)) :=
  if chunk_size = 0 ∨ chunk_size ≤ overlap then
    Except.error RAGError.invalidConfig
  else Except.ok (splitGo chunk_size (chunk_size - overlap) text.length text)


/-! ### Rendering the concrete templates never fails -/

theorem render_system_ok (style len : String) :
    renderParts true ragSystemDefaults
      [("response_style", style), ("response_length", len)] ragSystemParts =
      Except.ok (sysMsg style len) := by
  simp [renderParts, ragSystemParts, lookupParam, List.find?, sysMsg,
    Except.map, String.append_assoc]

theorem render_user_ok (q ctx cnt scores : String) :
    renderParts true ragUserDefaults
      [("user_query", q), ("context", ctx), ("context_count", cnt),
       ("similarity_scores", scores)] ragUserParts =
      Except.ok (userMsg q ctx cnt scores) := by
  simp [renderParts, ragUserParts, lookupParam, List.find?, userMsg,
    Except.map, String.append_assoc]

/-! ### The two evaluation lemmas for `run_pipeline` -/

/-- When retrieval fails, `run_pipeline` returns exactly that error. -/
theorem run_pipeline_err
    (llm : List String → Except RAGError String)
    (retriever : String → ℕ → Except RAGError (List (String × ℚ)))
    (style : String) (inc : Bool) (q : String) (k : ℕ)
    (kw : List (String × String)) (e : RAGError)
    (hr : retriever q k = Except.error e) :
    run_pipeline llm retriever style inc q k kw = Except.error e := by
  simp [run_pipeline, hr, bind, Except.bind]

/-- When retrieval succeeds but the LLM call fails, `run_pipeline` returns
exactly the LLM's error. -/
theorem run_pipeline_llm_err
    (llm : List String → Except RAGError String)
    (retriever : String → ℕ → Except RAGError (List (String × ℚ)))
    (style : String) (inc : Bool) (q : String) (k : ℕ)
    (kw : List (String × String)) (ctx : List (String × ℚ)) (e : RAGError)
    (hr : retriever q k = Except.ok ctx)
    (hl : llm [pipelineSystemMessage style kw,
               pipelineUserMessage inc q ctx] = Except.error e) :
    run_pipeline llm retriever style inc q k kw = Except.error e := by
  have h1 := render_system_ok style
    ((lookupParam kw "response_length").getD "detailed")
  have h2 := render_user_ok q (pyStrip (contextBlockRaw ctx))
    (toString ctx.length) (scoresLine inc ctx)
  simp only [contextBlockRaw, scoresLine, scoreStrings] at h2
  simp only [pipelineSystemMessage, pipelineUserMessage, sysMsg,
    contextBlockRaw, scoresLine, scoreStrings] at hl
  simp only [run_pipeline, hr, bind, Except.bind, h1, h2, sysMsg, hl]

/-- When retrieval succeeds with `ctx` and the LLM answers `resp` on the
ordered pair of rendered messages, `run_pipeline` returns the bundled
result. -/
theorem run_pipeline_full
    (llm : List String → Except RAGError String)
    (retriever : String → ℕ → Except RAGError (List (String × ℚ)))
    (style : String) (inc : Bool) (q : String) (k : ℕ)
    (kw : List (String × String)) (ctx : List (String × ℚ)) (resp : String)
    (hr : retriever q k = Except.ok ctx)
    (hl : llm [pipelineSystemMessage style kw,
               pipelineUserMessage inc q ctx] = Except.ok resp) :
    run_pipeline llm retriever style inc q k kw = Except.ok
      { response := resp
        context := ctx
        context_count := ctx.length
        similarity_scores := if inc then some (scoreStrings ctx) else none
        prompts_system := pipelineSystemMessage style kw
        prompts_user := pipelineUserMessage inc q ctx } := by
  have h1 := render_system_ok style
    ((lookupParam kw "response_length").getD "detailed")
  have h2 := render_user_ok q (pyStrip (contextBlockRaw ctx))
    (toString ctx.length) (scoresLine inc ctx)
  simp only [contextBlockRaw, scoresLine, scoreStrings] at h2
  simp only [pipelineSystemMessage, pipelineUserMessage, sysMsg,
    contextBlockRaw, scoresLine, scoreStrings] at hl
  simp only [run_pipeline, hr, bind, Except.bind, h1, h2, sysMsg, hl,
    pipelineSystemMessage, pipelineUserMessage, contextBlockRaw,
    scoresLine, scoreStrings]

/-! ### Helper lemmas -/

theorem scoreStrings_length (ctx : List (String × ℚ)) :
    (scoreStrings ctx).length = ctx.length := by
  simp [scoreStrings]

theorem scoreStrings_getElem? (ctx : List (String × ℚ)) (i : ℕ) :
    (scoreStrings ctx)[i]? = ctx[i]?.map
      (fun c => "Source " ++ toString (i + 1) ++ ": " ++ formatScore3 c.2) := by
  simp only [scoreStrings, List.getElem?_map, List.getElem?_enumFrom,
    Option.map_map]
  cases ctx[i]? with
  | none => rfl
  | some c => simp [Nat.add_comm]

theorem contextEntries_getElem? (ctx : List (String × ℚ)) (i : ℕ) :
    ((ctx.enumFrom 1).map
      (fun p => "[Source " ++ toString p.1 ++ "]: " ++ p.2.1 ++ "\n\n"))[i]? =
      ctx[i]?.map
        (fun c => "[Source " ++ toString (i + 1) ++ "]: " ++ c.1 ++ "\n\n") := by
  simp only [List.getElem?_map, List.getElem?_enumFrom, Option.map_map]
  cases ctx[i]? with
  | none => rfl
  | some c => simp [Nat.add_comm]

theorem simLE_trans (a b c : String × ℝ) :
    simLE a b → simLE b c → simLE a c := by
  intro hab hbc
  simp only [simLE, decide_eq_true_eq] at *
  exact le_trans hbc hab

theorem simLE_total (a b : String × ℝ) : simLE a b || simLE b a := by
  simp only [simLE, Bool.or_eq_true, decide_eq_true_eq]
  exact le_total b.2 a.2

theorem splitGo_length (chunkSize step : ℕ) (hstep : 0 < step) :
    ∀ (fuel : ℕ) (l : List Char), l.length ≤ fuel →
      (splitGo chunkSize step fuel l).length = (l.length + step - 1) / step := by
  intro fuel
  induction fuel with
  | zero =>
    intro l hl
    have hnil : l = [] := by
      cases l with
      | nil => rfl
      | cons a t => simp at hl
    subst hnil
    simp only [splitGo, List.length_nil, Nat.zero_add]
    exact (Nat.div_eq_of_lt (by omega)).symm
  | succ fuel ih =>
    intro l hl
    cases l with
    | nil =>
      simp only [splitGo, List.length_nil, Nat.zero_add]
      exact (Nat.div_eq_of_lt (by omega)).symm
    | cons c rest =>
      have hdrop : (List.drop step (c :: rest)).length ≤ fuel := by
        simp only [List.length_drop, List.length_cons] at *
        omega
      have hrec := ih (List.drop step (c :: rest)) hdrop
      simp only [splitGo, List.length_cons, hrec, List.length_drop]
      rcases le_or_lt (rest.length + 1) step with hle | hlt
      · have e1 : rest.length + 1 - step = 0 := by omega
        rw [e1]
        have h2 : (0 + step - 1) / step = 0 := Nat.div_eq_of_lt (by omega)
        have h3 : (rest.length + 1 + step - 1) / step = 1 :=
          Nat.div_eq_of_lt_le (by omega) (by omega)
        rw [h2, h3]
      · have e1 : rest.length + 1 - step + step - 1 = rest.length := by omega
        have e2 : rest.length + 1 + step - 1 = rest.length + step := by omega
        rw [e1, e2, Nat.add_div_right _ hstep]

/-! ### C1: `search` returns the top `min(k, n)` scored chunks sorted
descending -/

/-- C1: for every vector store holding at least one entry and every
`k > 0`, `search(query_vector, k)` succeeds and returns exactly
`min(k, n)` scored chunks (where `n` is the store's entry count), never
more than `k`, never more than `n`, sorted by cosine similarity in
descending order (every adjacent pair satisfies
`similarity[i] ≥ similarity[i+1]`). -/
theorem search_topk_sorted (db : List IndexEntry) (q : List ℝ) (k : ℕ)
    (hdb : db ≠ []) (hk : 0 < k) :
    ∃ r, search db q k = Except.ok r ∧
      r.length = min k db.length ∧
      r.length ≤ k ∧
      r.length ≤ db.length ∧
      r.Pairwise (fun a b => b.2 ≤ a.2) := by
  have hne : db.isEmpty = false := by
    simpa using hdb
  refine ⟨((db.map
      (fun e => (e.chunk, cosine_similarity q e.vector))).mergeSort
        simLE).take k, ?_, ?_, ?_, ?_, ?_⟩
  · simp [search, hne]
  · simp [List.length_take]
  · simp [List.length_take]
  · simp [List.length_take]
  · have hs := List.sorted_mergeSort (fun a b c => simLE_trans a b c)
      simLE_total (db.map (fun e => (e.chunk, cosine_similarity q e.vector)))
    have hp := List.Pairwise.sublist (List.take_sublist k _) hs
    exact hp.imp (fun h => by
      simpa only [simLE, decide_eq_true_eq] using h)

/-- Witness for C1 at a concrete two-entry store and `k = 1`. -/
theorem search_topk_sorted_witness :
    ([(⟨"a", [(1 : ℝ), 0]⟩ : IndexEntry), ⟨"b", [(0 : ℝ), 1]⟩] ≠
      ([] : List IndexEntry)) ∧ 0 < 1 ∧
    ∃ r, search [⟨"a", [(1 : ℝ), 0]⟩, ⟨"b", [(0 : ℝ), 1]⟩] [(1 : ℝ), 0] 1 =
        Except.ok r ∧
      r.length = min 1 2 ∧ r.length ≤ 1 ∧ r.length ≤ 2 ∧
      r.Pairwise (fun a b => b.2 ≤ a.2) :=
  ⟨by simp, by decide,
    search_topk_sorted [⟨"a", [(1 : ℝ), 0]⟩, ⟨"b", [(0 : ℝ), 1]⟩]
      [(1 : ℝ), 0] 1 (by simp) (by decide)⟩

/-! ### C2: the `similarity_scores` field of the result -/

/-- C2: for every pipeline run, the `similarity_scores` field of the
returned result is `none` when the pipeline was configured with
`include_scores = false`; when `include_scores = true` it is the list with
exactly one entry per retrieved chunk, entry `i` (counting from 1, in the
order returned by search) being `"Source i: <score>"` with the score
formatted to three decimal places. -/
theorem pipeline_similarity_scores
    (llm : List String → Except RAGError String)
    (retriever : String → ℕ → Except RAGError (List (String × ℚ)))
    (style : String) (inc : Bool) (q : String) (k : ℕ)
    (kw : List (String × String)) (ctx : List (String × ℚ)) (resp : String)
    (hr : retriever q k = Except.ok ctx)
    (hl : llm [pipelineSystemMessage style kw,
               pipelineUserMessage inc q ctx] = Except.ok resp) :
    ∃ res, run_pipeline llm retriever style inc q k kw = Except.ok res ∧
      (inc = false → res.similarity_scores = none) ∧
      (inc = true → res.similarity_scores = some (scoreStrings ctx)) ∧
      (scoreStrings ctx).length = ctx.length ∧
      (∀ i, (scoreStrings ctx)[i]? = ctx[i]?.map
        (fun c => "Source " ++ toString (i + 1) ++ ": " ++ formatScore3 c.2)) := by
  refine ⟨_, run_pipeline_full llm retriever style inc q k kw ctx resp hr hl,
    ?_, ?_, scoreStrings_length ctx, scoreStrings_getElem? ctx⟩
  · intro h
    simp [h]
  · intro h
    simp [h]

/-- Witness for C2 with a one-chunk retrieval and scores included. -/
theorem pipeline_similarity_scores_witness :
    (retrConst "q" 3 = Except.ok [("c", 1/2)]) ∧
    ∃ res, run_pipeline llmConst retrConst "detailed" true "q" 3 [] =
        Except.ok res ∧
      (true = false → res.similarity_scores = none) ∧
      (true = true → res.similarity_scores = some (scoreStrings [("c", 1/2)])) ∧
      (scoreStrings [("c", 1/2)]).length = [(("c" : String), (1/2 : ℚ))].length ∧
      (∀ i, (scoreStrings [("c", 1/2)])[i]? = [(("c" : String), (1/2 : ℚ))][i]?.map
        (fun c => "Source " ++ toString (i + 1) ++ ": " ++ formatScore3 c.2)) :=
  ⟨rfl, pipeline_similarity_scores llmConst retrConst "detailed" true "q" 3 []
    [("c", 1/2)] "ans" rfl rfl⟩

/-! ### C3: the rendered user message -/

/-- C3: for every pipeline run, the rendered user message embeds a numbered
context block with exactly one `"[Source i]: <chunk>"` entry per retrieved
chunk, numbered from 1 in the order returned by search, together with the
retrieved count and a similarity-scores line that is the empty string
whenever `include_scores` is false. -/
theorem pipeline_user_message
    (llm : List String → Except RAGError String)
    (retriever : String → ℕ → Except RAGError (List (String × ℚ)))
    (style : String) (inc : Bool) (q : String) (k : ℕ)
    (kw : List (String × String)) (ctx : List (String × ℚ)) (resp : String)
    (hr : retriever q k = Except.ok ctx)
    (hl : llm [pipelineSystemMessage style kw,
               pipelineUserMessage inc q ctx] = Except.ok resp) :
    ∃ res, run_pipeline llm retriever style inc q k kw = Except.ok res ∧
      res.prompts_user =
        "Context Information:\n" ++ pyStrip (contextBlockRaw ctx) ++
        "\n\nNumber of relevant sources found: " ++ toString ctx.length ++
        "\n" ++ scoresLine inc ctx ++ "\n\nQuestion: " ++ q ++
        "\n\nPlease provide your answer based solely on the context above." ∧
      contextBlockRaw ctx = String.join ((ctx.enumFrom 1).map
        (fun p => "[Source " ++ toString p.1 ++ "]: " ++ p.2.1 ++ "\n\n")) ∧
      ((ctx.enumFrom 1).map
        (fun p => "[Source " ++ toString p.1 ++ "]: " ++ p.2.1 ++ "\n\n")).length =
        ctx.length ∧
      (∀ i, ((ctx.enumFrom 1).map
          (fun p => "[Source " ++ toString p.1 ++ "]: " ++ p.2.1 ++ "\n\n"))[i]? =
        ctx[i]?.map
          (fun c => "[Source " ++ toString (i + 1) ++ "]: " ++ c.1 ++ "\n\n")) ∧
      (inc = false → scoresLine inc ctx = "") := by
  refine ⟨_, run_pipeline_full llm retriever style inc q k kw ctx resp hr hl,
    ?_, rfl, by simp, contextEntries_getElem? ctx, ?_⟩
  · simp [pipelineUserMessage, userMsg]
  · intro h
    simp [scoresLine, h]

/-- Witness for C3 with a one-chunk retrieval. -/
theorem pipeline_user_message_witness :
    (retrConst "q" 3 = Except.ok [("c", 1/2)]) ∧
    ∃ res, run_pipeline llmConst retrConst "detailed" true "q" 3 [] =
        Except.ok res ∧
      res.prompts_user =
        "Context Information:\n" ++ pyStrip (contextBlockRaw [("c", 1/2)]) ++
        "\n\nNumber of relevant sources found: " ++
        toString [(("c" : String), (1/2 : ℚ))].length ++
        "\n" ++ scoresLine true [("c", 1/2)] ++ "\n\nQuestion: " ++ "q" ++
        "\n\nPlease provide your answer based solely on the context above." ∧
      contextBlockRaw [("c", 1/2)] =
        String.join ((List.enumFrom 1 [(("c" : String), (1/2 : ℚ))]).map
          (fun p => "[Source " ++ toString p.1 ++ "]: " ++ p.2.1 ++ "\n\n")) ∧
      ((List.enumFrom 1 [(("c" : String), (1/2 : ℚ))]).map
        (fun p => "[Source " ++ toString p.1 ++ "]: " ++ p.2.1 ++ "\n\n")).length =
        [(("c" : String), (1/2 : ℚ))].length ∧
      (∀ i, ((List.enumFrom 1 [(("c" : String), (1/2 : ℚ))]).map
          (fun p => "[Source " ++ toString p.1 ++ "]: " ++ p.2.1 ++ "\n\n"))[i]? =
        [(("c" : String), (1/2 : ℚ))][i]?.map
          (fun c => "[Source " ++ toString (i + 1) ++ "]: " ++ c.1 ++ "\n\n")) ∧
      (true = false → scoresLine true [("c", 1/2)] = "") :=
  ⟨rfl, pipeline_user_message llmConst retrConst "detailed" true "q" 3 []
    [("c", 1/2)] "ans" rfl rfl⟩

/-! ### C4: failures propagate unmodified -/

/-- C4: for every pipeline run in which retrieval fails or generation
fails, `run_pipeline` returns exactly that error to its caller: no partial
result is synthesized and no default answer is substituted. -/
theorem pipeline_error_propagation
    (llm : List String → Except RAGError String)
    (retriever : String → ℕ → Except RAGError (List (String × ℚ)))
    (style : String) (inc : Bool) (q : String) (k : ℕ)
    (kw : List (String × String)) :
    (∀ e, retriever q k = Except.error e →
      run_pipeline llm retriever style inc q k kw = Except.error e) ∧
    (∀ ctx e, retriever q k = Except.ok ctx →
      llm [pipelineSystemMessage style kw,
           pipelineUserMessage inc q ctx] = Except.error e →
      run_pipeline llm retriever style inc q k kw = Except.error e) :=
  ⟨fun e he => run_pipeline_err llm retriever style inc q k kw e he,
   fun ctx e hr hl =>
     run_pipeline_llm_err llm retriever style inc q k kw ctx e hr hl⟩

/-- Witness for C4: a failing LLM's error comes back unmodified. -/
theorem pipeline_error_propagation_witness :
    run_pipeline llmFail retrConst "detailed" true "q" 3 [] =
      Except.error RAGError.generationError :=
  (pipeline_error_propagation llmFail retrConst "detailed" true "q" 3 []).2
    [("c", 1/2)] RAGError.generationError rfl rfl

/-! ### C5: zero retrieved chunks is not an error -/

set_option maxRecDepth 16384 in
/-- C5: for every pipeline run in which retrieval returns zero chunks (and
the LLM collaborator answers), `run_pipeline` succeeds: both templates
render, the result has `context_count = 0` and an empty context list, and
the fixed system wording instructs the model to respond "I don't know"
when context is insufficient. -/
theorem pipeline_empty_retrieval
    (llm : List String → Except RAGError String)
    (retriever : String → ℕ → Except RAGError (List (String × ℚ)))
    (style : String) (inc : Bool) (q : String) (k : ℕ)
    (kw : List (String × String)) (resp : String)
    (hr : retriever q k = Except.ok [])
    (hl : llm [pipelineSystemMessage style kw,
               pipelineUserMessage inc q []] = Except.ok resp) :
    ∃ res, run_pipeline llm retriever style inc q k kw = Except.ok res ∧
      res.context_count = 0 ∧ res.context = [] ∧
      ∃ a b, res.prompts_system =
        a ++ ("respond with \"I don\x27t know\"" ++ b) := by
  refine ⟨_, run_pipeline_full llm retriever style inc q k kw [] resp hr hl,
    rfl, rfl, ?_⟩
  refine ⟨"You are a knowledgeable assistant that answers questions based strictly on provided context.\n\nInstructions:\n- Only answer questions using information from the provided context\n- If the context doesn\x27t contain relevant information, ",
    "\n- Be accurate and cite specific parts of the context when possible\n- Keep responses " ++
      style ++ (" and " ++
        ((lookupParam kw "response_length").getD "detailed" ++ sysPost)), ?_⟩
  have hpre : sysPre =
      ("You are a knowledgeable assistant that answers questions based strictly on provided context.\n\nInstructions:\n- Only answer questions using information from the provided context\n- If the context doesn\x27t contain relevant information, " ++
        "respond with \"I don\x27t know\"") ++
      "\n- Be accurate and cite specific parts of the context when possible\n- Keep responses " := rfl
  show pipelineSystemMessage style kw = _
  rw [pipelineSystemMessage, sysMsg, hpre]
  simp only [String.append_assoc]

/-- Witness for C5 with the empty retriever. -/
theorem pipeline_empty_retrieval_witness :
    (retrEmpty "q" 3 = Except.ok []) ∧
    ∃ res, run_pipeline llmConst retrEmpty "detailed" true "q" 3 [] =
        Except.ok res ∧
      res.context_count = 0 ∧ res.context = [] ∧
      ∃ a b, res.prompts_system =
        a ++ ("respond with \"I don\x27t know\"" ++ b) :=
  ⟨rfl, pipeline_empty_retrieval llmConst retrEmpty "detailed" true "q" 3 []
    "ans" rfl rfl⟩

/-! ### C6: response style and length in the system message -/

/-- C6: for every pipeline run, the system message is rendered with the
pipeline's configured `response_style` and with `response_length` taken
from the caller's keyword overrides when supplied, defaulting to
`"detailed"` when no `response_length` override is supplied. -/
theorem pipeline_system_message_params
    (llm : List String → Except RAGError String)
    (retriever : String → ℕ → Except RAGError (List (String × ℚ)))
    (style : String) (inc : Bool) (q : String) (k : ℕ)
    (kw : List (String × String)) (ctx : List (String × ℚ)) (resp : String)
    (hr : retriever q k = Except.ok ctx)
    (hl : llm [pipelineSystemMessage style kw,
               pipelineUserMessage inc q ctx] = Except.ok resp) :
    ∃ res, run_pipeline llm retriever style inc q k kw = Except.ok res ∧
      (∀ v, lookupParam kw "response_length" = some v →
        res.prompts_system = sysMsg style v) ∧
      (lookupParam kw "response_length" = none →
        res.prompts_system = sysMsg style "detailed") := by
  refine ⟨_, run_pipeline_full llm retriever style inc q k kw ctx resp hr hl,
    ?_, ?_⟩
  · intro v hv
    show pipelineSystemMessage style kw = _
    rw [pipelineSystemMessage, hv]
    rfl
  · intro hv
    show pipelineSystemMessage style kw = _
    rw [pipelineSystemMessage, hv]
    rfl

/-- Witness for C6 with an explicit `response_length` override. -/
theorem pipeline_system_message_params_witness :
    (retrConst "q" 3 = Except.ok [("c", 1/2)]) ∧
    ∃ res, run_pipeline llmConst retrConst "detailed" true "q" 3
        [("response_length", "comprehensive")] = Except.ok res ∧
      (∀ v, lookupParam [("response_length", "comprehensive")]
          "response_length" = some v →
        res.prompts_system = sysMsg "detailed" v) ∧
      (lookupParam [("response_length", "comprehensive")]
          "response_length" = none →
        res.prompts_system = sysMsg "detailed" "detailed") :=
  ⟨rfl, pipeline_system_message_params llmConst retrConst "detailed" true
    "q" 3 [("response_length", "comprehensive")] [("c", 1/2)] "ans" rfl rfl⟩

/-! ### C7: a single LLM invocation with the ordered message pair -/

/-- C7: for every pipeline run with successful retrieval, the LLM
collaborator is invoked exactly once, with the ordered two-element list
`[system message, user message]`, and the result's `prompts_used` fields
contain exactly those two rendered strings: `run_pipeline` equals the bind
of that single invocation. -/
theorem pipeline_llm_invocation
    (llm : List String → Except RAGError String)
    (retriever : String → ℕ → Except RAGError (List (String × ℚ)))
    (style : String) (inc : Bool) (q : String) (k : ℕ)
    (kw : List (String × String)) (ctx : List (String × ℚ))
    (hr : retriever q k = Except.ok ctx) :
    run_pipeline llm retriever style inc q k kw =
      Except.bind
        (llm [pipelineSystemMessage style kw, pipelineUserMessage inc q ctx])
        (fun resp => Except.ok
          { response := resp
            context := ctx
            context_count := ctx.length
            similarity_scores := if inc then some (scoreStrings ctx) else none
            prompts_system := pipelineSystemMessage style kw
            prompts_user := pipelineUserMessage inc q ctx }) := by
  cases hl : llm [pipelineSystemMessage style kw,
                  pipelineUserMessage inc q ctx] with
  | error e =>
    rw [run_pipeline_llm_err llm retriever style inc q k kw ctx e hr hl]
    rfl
  | ok resp =>
    rw [run_pipeline_full llm retriever style inc q k kw ctx resp hr hl]
    rfl

/-- Witness for C7 with the one-chunk retriever. -/
theorem pipeline_llm_invocation_witness :
    (retrConst "q" 3 = Except.ok [("c", 1/2)]) ∧
    run_pipeline llmConst retrConst "detailed" true "q" 3 [] =
      Except.bind
        (llmConst [pipelineSystemMessage "detailed" [],
                   pipelineUserMessage true "q" [("c", 1/2)]])
        (fun resp => Except.ok
          { response := resp
            context := [("c", 1/2)]
            context_count := [(("c" : String), (1/2 : ℚ))].length
            similarity_scores := if true then
                some (scoreStrings [("c", 1/2)])
              else none
            prompts_system := pipelineSystemMessage "detailed" []
            prompts_user := pipelineUserMessage true "q" [("c", 1/2)] }) :=
  ⟨rfl, pipeline_llm_invocation llmConst retrConst "detailed" true "q" 3 []
    [("c", 1/2)] rfl⟩

/-! ### C9: extra keyword arguments never affect the result -/

/-- C9: two `run_pipeline` calls with the same query, `k`, configuration
and collaborators, whose keyword-argument dictionaries agree on
`response_length` (in particular, dictionaries differing only in extra
keywords such as `include_warnings` or `confidence_required`), return
equal results; extra keywords never cause an error. -/
theorem pipeline_extra_kwargs_no_effect
    (llm : List String → Except RAGError String)
    (retriever : String → ℕ → Except RAGError (List (String × ℚ)))
    (style : String) (inc : Bool) (q : String) (k : ℕ)
    (kw1 kw2 : List (String × String))
    (h : lookupParam kw1 "response_length" = lookupParam kw2 "response_length") :
    run_pipeline llm retriever style inc q k kw1 =
      run_pipeline llm retriever style inc q k kw2 := by
  simp only [run_pipeline, h]

/-- Witness for C9: the notebook's extra keywords `include_warnings` and
`confidence_required` do not change the result, and the run with extra
keywords succeeds. -/
theorem pipeline_extra_kwargs_no_effect_witness :
    (lookupParam [("include_warnings", "true")] "response_length" =
      lookupParam [("confidence_required", "true")] "response_length") ∧
    run_pipeline llmConst retrConst "detailed" true "q" 3
        [("include_warnings", "true")] =
      run_pipeline llmConst retrConst "detailed" true "q" 3
        [("confidence_required", "true")] :=
  ⟨rfl, pipeline_extra_kwargs_no_effect llmConst retrConst "detailed" true
    "q" 3 [("include_warnings", "true")] [("confidence_required", "true")] rfl⟩

/-! ### C10: count and length invariants of the result -/

/-- C10: in every result returned by `run_pipeline`, `context_count`
equals the length of the `context` list, and when `include_scores` is true
the `similarity_scores` list is present with that same length. -/
theorem pipeline_count_invariant
    (llm : List String → Except RAGError String)
    (retriever : String → ℕ → Except RAGError (List (String × ℚ)))
    (style : String) (inc : Bool) (q : String) (k : ℕ)
    (kw : List (String × String)) (ctx : List (String × ℚ)) (resp : String)
    (hr : retriever q k = Except.ok ctx)
    (hl : llm [pipelineSystemMessage style kw,
               pipelineUserMessage inc q ctx] = Except.ok resp) :
    ∃ res, run_pipeline llm retriever style inc q k kw = Except.ok res ∧
      res.context_count = res.context.length ∧
      (inc = true → ∃ ss, res.similarity_scores = some ss ∧
        ss.length = res.context.length) := by
  refine ⟨_, run_pipeline_full llm retriever style inc q k kw ctx resp hr hl,
    rfl, ?_⟩
  intro h
  exact ⟨scoreStrings ctx, by simp [h], scoreStrings_length ctx⟩

/-- Witness for C10 with a one-chunk retrieval and scores included. -/
theorem pipeline_count_invariant_witness :
    (retrConst "q" 3 = Except.ok [("c", 1/2)]) ∧
    ∃ res, run_pipeline llmConst retrConst "detailed" true "q" 3 [] =
        Except.ok res ∧
      res.context_count = res.context.length ∧
      (true = true → ∃ ss, res.similarity_scores = some ss ∧
        ss.length = res.context.length) :=
  ⟨rfl, pipeline_count_invariant llmConst retrConst "detailed" true "q" 3 []
    [("c", 1/2)] "ans" rfl rfl⟩

/-! ### C8: the chunker on a 250-character document -/

set_option maxRecDepth 100000 in
/-- C8, counterexample: with `chunk_size = 100` and `overlap = 20` the
windows of a 250-character document start at offsets 0, 80, 160 and 240,
so the chunker emits 4 chunks, not 3 as claimed: the window starting at
offset 240 is non-empty (10 characters) and is still emitted. -/
theorem chunker_250_not_3 :
    (split_text 100 20 (List.replicate 250 'a')).map List.length =
      Except.ok 4 ∧
    (split_text 100 20 (List.replicate 250 'a')).map List.length ≠
      Except.ok 3 := by
  constructor
  · rfl
  · intro h
    rw [show (split_text 100 20 (List.replicate 250 'a')).map List.length =
      Except.ok 4 from rfl] at h
    simp at h

/-- C8 as amended: the chunker with `chunk_size = 100` and `overlap = 20`
over any 250-character document yields exactly 4 overlapping chunks. -/
theorem chunker_250_yields_4 (text : List Char) (h : text.length = 250) :
    (split_text 100 20 text).map List.length = Except.ok 4 := by
  have hlen := splitGo_length 100 80 (by omega) text.length text (le_refl _)
  rw [h] at hlen
  simp only [split_text, Except.map]
  norm_num
  rw [h, hlen]

/-- Witness for the amended C8 at a concrete 250-character document. -/
theorem chunker_250_yields_4_witness :
    (List.replicate 250 'a').length = 250 ∧
    (split_text 100 20 (List.replicate 250 'a')).map List.length =
      Except.ok 4 :=
  ⟨List.length_replicate 250 'a',
    chunker_250_yields_4 (List.replicate 250 'a')
      (List.length_replicate 250 'a')⟩

end RAG
